import Mathlib

/-!
Verification of the DomainSurvivor probing-and-classification engine
(`DomainSurvivorUpdated.go` and the proxy-enabled revision in
`DomainSurvivor.go`): shallow embedding of the response classifier, the
baseline generator, the dual-protocol prober, the semaphore-based
concurrency limiter, the round-robin proxy rotator and the batched
orchestrator, with theorems settling the specification claims.
-/

namespace DomainSurvivor

/-- An HTTP response as the classifier sees it: its status code and the
result of reading its body with `io.ReadAll` (`none` models a body-read
error, `some b` a successfully read body `b`). -/
structure HttpResponse where
  statusCode : Int
  body : Option String
deriving DecidableEq, Repr

/-- Embedding of `evaluateResponse` (DomainSurvivorUpdated.go lines 97-118,
identically DomainSurvivor.go lines 582-604).  The external string metric
`smetrics.JaroWinkler` is a library dependency, not repository code, so it
enters as the parameter `jw`; every call site applies it with the fixed
scaling `0.7` (here the rational `7/10`) and fixed maximum common-prefix
length `4`, exactly as the source does. -/
def evaluateResponse (jw : String → String → ℚ → ℕ → ℚ)
    (resp : HttpResponse) (baseline : String) (targetStatusCode : Int)
    (checkAlive useBaseline : Bool) (baselineThreshold : ℚ) : Bool :=
  if checkAlive then
    true
  else if resp.statusCode = targetStatusCode then
    if useBaseline then
      match resp.body with
      | none => false
      | some body => decide (jw baseline body (7/10) 4 < baselineThreshold)
    else true
  else
    false

/-- The decision function exactly as the specification words it (spec §4.4):
first matching rule wins; `checkAlive` matches every received response;
otherwise on target status, baseline off means match, baseline on means
match iff the similarity of baseline and body is strictly below the
threshold; otherwise no match.  Stated over a readable body `body`. -/
def specClassifier (jw : String → String → ℚ → ℕ → ℚ)
    (status : Int) (body baseline : String) (targetStatusCode : Int)
    (checkAlive useBaseline : Bool) (baselineThreshold : ℚ) : Bool :=
  if checkAlive then
    true
  else if status = targetStatusCode then
    if useBaseline then
      decide (jw baseline body (7/10) 4 < baselineThreshold)
    else true
  else
    false

/-- Outcome of the baseline HTTP request of `getBaseline`: the GET may fail
with a network error, the body read may fail, or a body is obtained. -/
inductive BaselineOutcome where
  | netError : BaselineOutcome
  | readError : BaselineOutcome
  | bodyContent : String → BaselineOutcome
deriving DecidableEq, Repr

/-- Embedding of `getBaseline` (DomainSurvivorUpdated.go lines 76-94): a
network error or a body-read error yields `""`; otherwise the body string
is returned.  The empty string doubles as the failure sentinel. -/
def getBaseline : BaselineOutcome → String
  | .netError => ""
  | .readError => ""
  | .bodyContent s => s

/-- Scan-wide criteria configuration (the flags `fetchURL` receives plus
the global `dropRedirects`). -/
structure Config where
  targetStatusCode : Int
  checkAlive : Bool
  useBaseline : Bool
  baselineThreshold : ℚ
  dropRedirects : Bool
deriving DecidableEq, Repr

/-- Outcome of one `httpClient.Get` probe attempt: a transport error
(`err != nil`) or a received response. -/
inductive Attempt where
  | fail : Attempt
  | success : HttpResponse → Attempt
deriving DecidableEq, Repr

/-- The baseline string `fetchURL` holds after its prelude: `""` unless
baseline mode is on, in which case the result of `getBaseline`. -/
def baselineOf (cfg : Config) (bout : BaselineOutcome) : String :=
  if cfg.useBaseline then getBaseline bout else ""

/-- The protocol loop of `fetchURL` (DomainSurvivorUpdated.go lines 55-72):
walk the protocol list; a transport error falls through to the next
protocol; under `dropRedirects` a 3xx response aborts the domain; a
response the classifier accepts emits the domain and stops.  Returns
whether the domain matched together with the list of protocols actually
attempted, in order. -/
def fetchAttempts (jw : String → String → ℚ → ℕ → ℚ) (cfg : Config)
    (baseline : String) (probe : String → Attempt) :
    List String → Bool × List String
  | [] => (false, [])
  | p :: rest =>
    match probe p with
    | .fail =>
      let r := fetchAttempts jw cfg baseline probe rest
      (r.1, p :: r.2)
    | .success resp =>
      if cfg.dropRedirects ∧ 300 ≤ resp.statusCode ∧ resp.statusCode < 400 then
        (false, [p])
      else if evaluateResponse jw resp baseline cfg.targetStatusCode
          cfg.checkAlive cfg.useBaseline cfg.baselineThreshold then
        (true, [p])
      else
        let r := fetchAttempts jw cfg baseline probe rest
        (r.1, p :: r.2)

/-- Embedding of `fetchURL` (DomainSurvivorUpdated.go lines 43-73): when
baseline mode is on, fetch the baseline first and return early if it is
`""`; then try the protocols `["http", "https"]` in order.  The result is
the emitted match (`some url` sent to the results channel, or `none`)
paired with the protocols attempted. -/
def fetchURL (jw : String → String → ℚ → ℕ → ℚ) (cfg : Config) (url : String)
    (bout : BaselineOutcome) (probe : String → Attempt) :
    Option String × List String :=
  if cfg.useBaseline ∧ baselineOf cfg bout = "" then
    (none, [])
  else
    (if (fetchAttempts jw cfg (baselineOf cfg bout) probe ["http", "https"]).1
      then some url else none,
     (fetchAttempts jw cfg (baselineOf cfg bout) probe ["http", "https"]).2)

/-- Embedding of `randomString` (DomainSurvivorUpdated.go lines 129-137):
the stream `rng` models the successive draws of `seededRand.Intn(62)`; the
reduction `% 62` reflects that `Intn(len(charset))` always lands inside the
62-character alphanumeric charset. -/
def charset : String :=
  "abcdefghijklmnopqrstuvwxyzABCDEFGHIJKLMNOPQRSTUVWXYZ0123456789"

/-- The random alphanumeric string of the given length built from the draw
stream, indexing `charset` like the Go loop does. -/
def randomString (rng : ℕ → ℕ) (length : ℕ) : String :=
  String.mk ((List.range length).map (fun i => charset.toList.getD (rng i % 62) 'a'))

/-- The URL `getBaseline` requests (DomainSurvivorUpdated.go line 79):
`fmt.Sprintf("http://%s?%s=%s", url, randomParam, randomPath)` with
`randomPath = randomString(12)` and `randomParam = randomString(6)`.  The
two draw streams model the two fresh `rand.New` sources of the two calls. -/
def getBaselineFullURL (rngPath rngParam : ℕ → ℕ) (url : String) : String :=
  "http://" ++ url ++ "?" ++ randomString rngParam 6 ++ "=" ++ randomString rngPath 12

/-- The four control-flow exits of a `fetchURL` invocation: the loop runs
to completion (match emitted or protocols exhausted), a transport error
fell through on the last protocol, the redirect-drop early return fired,
or the baseline-failure early return fired. -/
inductive ExitPath where
  | normal : ExitPath
  | errorFallthrough : ExitPath
  | redirectDrop : ExitPath
  | baselineFailure : ExitPath
deriving DecidableEq, Repr

/-- State of the admission machinery of `main`/`processBatch`: `slots` is
the number of tokens currently in the semaphore channel (capacity `N`),
`pending` counts goroutines spawned by `processBatch` whose `fetchURL`
body has not started executing yet, `running` counts currently executing
`fetchURL` invocations. -/
structure LimiterState where
  slots : ℕ
  pending : ℕ
  running : ℕ
deriving DecidableEq, Repr

/-- One scheduler step of the batched orchestration
(DomainSurvivorUpdated.go lines 139-145 and 43-45): `processBatch` sends on
the semaphore — blocking unless `slots < N` — and spawns a goroutine; a
spawned goroutine begins executing `fetchURL`; a running invocation
finishes through any of its exit paths, in every case running the deferred
`<-semaphore` receive that frees its slot. -/
inductive LimiterStep (N : ℕ) : LimiterState → LimiterState → Prop
  | acquire (s : LimiterState) (h : s.slots < N) :
      LimiterStep N s ⟨s.slots + 1, s.pending + 1, s.running⟩
  | start (s : LimiterState) (h : 0 < s.pending) :
      LimiterStep N s ⟨s.slots, s.pending - 1, s.running + 1⟩
  | finish (s : LimiterState) (e : ExitPath) (h : 0 < s.running) :
      LimiterStep N s ⟨s.slots - 1, s.pending, s.running - 1⟩

/-- States the scan can reach from the initial empty semaphore. -/
def LimiterReachable (N : ℕ) (s : LimiterState) : Prop :=
  Relation.ReflTransGen (LimiterStep N) ⟨0, 0, 0⟩ s

/-- The inductive invariant of the limiter: held slots never exceed the
semaphore capacity, and every pending or running invocation holds a slot. -/
def LimiterInv (N : ℕ) (s : LimiterState) : Prop :=
  s.pending + s.running ≤ s.slots ∧ s.slots ≤ N

/-- A proxy URL as `getNextProxyURL` builds it (`url.URL` with `Scheme`,
`Host` and optional `User` credentials). -/
structure ProxyURL where
  scheme : String
  host : String
  user : Option (String × String)
deriving DecidableEq, Repr

/-- The package-level proxy state of DomainSurvivor.go (lines 410-421):
the pool, the rotation cursor, and the shared credentials. -/
structure ProxyState where
  proxies : List String
  proxyIndex : ℕ
  proxyUsername : String
  proxyPassword : String
deriving DecidableEq, Repr

/-- Builds the `url.URL` for a pool entry the way `getNextProxyURL` does:
scheme `http`, the trimmed address as host, credentials injected when both
username and password are nonempty. -/
def mkProxyURL (st : ProxyState) (addr : String) : ProxyURL :=
  if st.proxyUsername ≠ "" ∧ st.proxyPassword ≠ "" then
    ⟨"http", addr.trim, some (st.proxyUsername, st.proxyPassword)⟩
  else
    ⟨"http", addr.trim, none⟩

/-- Embedding of `getNextProxyURL` (DomainSurvivor.go lines 440-462): with
an empty pool, no proxy is returned and the state is unchanged; otherwise
the entry at the cursor is returned (trimmed, credentials injected) and
the cursor advances by one modulo the pool size.  The whole body runs
under `proxyMu`, so one invocation is one atomic state transformation. -/
def getNextProxyURL (st : ProxyState) : Option ProxyURL × ProxyState :=
  if st.proxies = [] then
    (none, st)
  else
    (some (mkProxyURL st (st.proxies.getD st.proxyIndex "")),
      ⟨st.proxies, (st.proxyIndex + 1) % st.proxies.length,
        st.proxyUsername, st.proxyPassword⟩)

/-- The proxy state after `n` sequential `getNextProxyURL` calls. -/
def rotateState (st : ProxyState) : ℕ → ProxyState
  | 0 => st
  | n + 1 => (getNextProxyURL (rotateState st n)).2

/-- The endpoint the `(n+1)`-st sequential `getNextProxyURL` call returns
(`n` counted from zero). -/
def rotateOut (st : ProxyState) (n : ℕ) : Option ProxyURL :=
  (getNextProxyURL (rotateState st n)).1

/-- The per-domain network environment the orchestrated scan runs one
domain against: its baseline request outcome and its probe outcomes. -/
structure DomainEnv where
  bout : BaselineOutcome
  probe : String → Attempt

/-- Whether one domain is emitted as a match by its `fetchURL` invocation
under environment `env`. -/
def emitsMatch (jw : String → String → ℚ → ℕ → ℚ) (cfg : Config)
    (env : String → DomainEnv) (url : String) : Bool :=
  ((fetchURL jw cfg url (env url).bout (env url).probe).1).isSome

/-- The matches one `processBatch` call (DomainSurvivorUpdated.go lines
139-145) sends to the results channel: every URL of the batch whose
`fetchURL` emits. -/
def processBatchResults (jw : String → String → ℚ → ℕ → ℚ) (cfg : Config)
    (env : String → DomainEnv) (batch : List String) : List String :=
  batch.filter (emitsMatch jw cfg env)

/-- The batching loop of `main` (DomainSurvivorUpdated.go lines 207-223):
accumulate scanned lines; once the accumulator reaches `batchSize`, flush
it as one batch; after the input ends, flush the nonempty remainder. -/
def mainBatches (batchSize : ℕ) (acc : List String) :
    List String → List (List String)
  | [] => if acc = [] then [] else [acc]
  | d :: ds =>
    if batchSize ≤ (acc ++ [d]).length then
      (acc ++ [d]) :: mainBatches batchSize [] ds
    else
      mainBatches batchSize (acc ++ [d]) ds

/-- The complete emitted-match multiset of the batched orchestration: each
batch processed by `processBatch`, results concatenated. -/
def batchedScanResults (jw : String → String → ℚ → ℕ → ℚ) (cfg : Config)
    (env : String → DomainEnv) (domains : List String) : List String :=
  (mainBatches 1000 [] domains).map (processBatchResults jw cfg env) |>.flatten

/-- The unbatched reference semantics: every domain fed one at a time to
its own `fetchURL`, keeping those that emit. -/
def unbatchedScanResults (jw : String → String → ℚ → ℕ → ℚ) (cfg : Config)
    (env : String → DomainEnv) (domains : List String) : List String :=
  domains.filter (emitsMatch jw cfg env)

/-! Helper lemmas on the protocol loop. -/

/-- The protocols a `fetchAttempts` run actually tries form a prefix of the
protocol list it was given: attempts happen in list order and stop early. -/
lemma fetchAttempts_order (jw : String → String → ℚ → ℕ → ℚ) (cfg : Config)
    (baseline : String) (probe : String → Attempt) :
    ∀ ps : List String, (fetchAttempts jw cfg baseline probe ps).2 <+: ps := by
  intro ps
  induction ps with
  | nil => simp [fetchAttempts]
  | cons p rest ih =>
    rw [fetchAttempts]
    cases probe p with
    | fail =>
      exact List.cons_prefix_cons.mpr ⟨rfl, ih⟩
    | success resp =>
      dsimp only
      by_cases hd : cfg.dropRedirects ∧ 300 ≤ resp.statusCode ∧
          resp.statusCode < 400
      · rw [if_pos hd]
        exact List.cons_prefix_cons.mpr ⟨rfl, List.nil_prefix⟩
      · rw [if_neg hd]
        by_cases hev : evaluateResponse jw resp baseline cfg.targetStatusCode
            cfg.checkAlive cfg.useBaseline cfg.baselineThreshold = true
        · rw [if_pos hev]
          exact List.cons_prefix_cons.mpr ⟨rfl, List.nil_prefix⟩
        · rw [if_neg hev]
          exact List.cons_prefix_cons.mpr ⟨rfl, ih⟩

/-- If no received response satisfies the classifier, the protocol loop
reports no match whatever the protocol list. -/
lemma fetchAttempts_no_match (jw : String → String → ℚ → ℕ → ℚ) (cfg : Config)
    (baseline : String) (probe : String → Attempt)
    (hno : ∀ p r, probe p = .success r →
      evaluateResponse jw r baseline cfg.targetStatusCode cfg.checkAlive
        cfg.useBaseline cfg.baselineThreshold = false) :
    ∀ ps : List String, (fetchAttempts jw cfg baseline probe ps).1 = false := by
  intro ps
  induction ps with
  | nil => simp [fetchAttempts]
  | cons p rest ih =>
    rw [fetchAttempts]
    cases hp : probe p with
    | fail => simpa using ih
    | success resp =>
      dsimp only
      by_cases hd : cfg.dropRedirects ∧ 300 ≤ resp.statusCode ∧
          resp.statusCode < 400
      · rw [if_pos hd]
      · rw [if_neg hd, if_neg (by simp [hno p resp hp])]
        simpa using ih

/-- A matching response at the head of the protocol list stops the loop at
once with a match. -/
lemma fetchAttempts_head_match (jw : String → String → ℚ → ℕ → ℚ) (cfg : Config)
    (baseline : String) (probe : String → Attempt) (p : String)
    (rest : List String) (r : HttpResponse)
    (hp : probe p = .success r)
    (hdrop : ¬(cfg.dropRedirects ∧ 300 ≤ r.statusCode ∧ r.statusCode < 400))
    (hev : evaluateResponse jw r baseline cfg.targetStatusCode cfg.checkAlive
      cfg.useBaseline cfg.baselineThreshold = true) :
    fetchAttempts jw cfg baseline probe (p :: rest) = (true, [p]) := by
  simp [fetchAttempts, hp, hdrop, hev]

/-- A 3xx response at the head of the protocol list under `dropRedirects`
stops the loop at once without a match. -/
lemma fetchAttempts_head_redirect (jw : String → String → ℚ → ℕ → ℚ)
    (cfg : Config) (baseline : String) (probe : String → Attempt) (p : String)
    (rest : List String) (r : HttpResponse)
    (hp : probe p = .success r) (hd : cfg.dropRedirects = true)
    (h3 : 300 ≤ r.statusCode) (h4 : r.statusCode < 400) :
    fetchAttempts jw cfg baseline probe (p :: rest) = (false, [p]) := by
  simp [fetchAttempts, hp, hd, h3, h4]

/-- Claim C1: the classifier `evaluateResponse` implements, rule by rule
and first match winning, exactly the decision function the specification
states: `checkAlive` matches any received response regardless of status;
otherwise, on the configured target status, baseline off means match and
baseline on means match iff the similarity of baseline content and
response body — computed by the one fixed-parameter metric `jw · · (7/10) 4`
used for every comparison — is strictly below the threshold; otherwise no
match.  Stated for every response whose body was read successfully. -/
theorem evaluateResponse_matches_spec (jw : String → String → ℚ → ℕ → ℚ)
    (resp : HttpResponse) (b baseline : String) (target : Int)
    (checkAlive useBaseline : Bool) (threshold : ℚ)
    (hbody : resp.body = some b) :
    evaluateResponse jw resp baseline target checkAlive useBaseline threshold
      = specClassifier jw resp.statusCode b baseline target checkAlive
          useBaseline threshold := by
  obtain ⟨st, body⟩ := resp
  simp only at hbody
  subst hbody
  rfl

/-- Witness for C1 at a concrete response and configuration. -/
theorem evaluateResponse_matches_spec_witness :
    evaluateResponse (fun _ _ _ _ => (0 : ℚ)) ⟨200, some "hello"⟩ "" 200
        false false (9/10)
      = specClassifier (fun _ _ _ _ => (0 : ℚ)) 200 "hello" "" 200 false
          false (9/10) :=
  evaluateResponse_matches_spec (fun _ _ _ _ => (0 : ℚ)) ⟨200, some "hello"⟩
    "hello" "" 200 false false (9/10) rfl

/-- Claim C3: the prober attempts protocols in the fixed order
`["http", "https"]` — the attempted list is always a prefix of it; a
response satisfying the classifier stops the loop immediately with the
single emission, wherever in the order it occurs; on the first protocol
this yields emission of the domain with no second attempt; and if every
received response fails the classifier, the domain produces no output. -/
theorem fetchURL_first_match_short_circuit (jw : String → String → ℚ → ℕ → ℚ)
    (cfg : Config) (url : String) (bout : BaselineOutcome)
    (probe : String → Attempt) :
    (fetchURL jw cfg url bout probe).2 <+: ["http", "https"]
    ∧ (∀ p rest r, probe p = .success r →
        ¬(cfg.dropRedirects ∧ 300 ≤ r.statusCode ∧ r.statusCode < 400) →
        evaluateResponse jw r (baselineOf cfg bout) cfg.targetStatusCode
          cfg.checkAlive cfg.useBaseline cfg.baselineThreshold = true →
        fetchAttempts jw cfg (baselineOf cfg bout) probe (p :: rest)
          = (true, [p]))
    ∧ (∀ r, ¬(cfg.useBaseline ∧ baselineOf cfg bout = "") →
        probe "http" = .success r →
        ¬(cfg.dropRedirects ∧ 300 ≤ r.statusCode ∧ r.statusCode < 400) →
        evaluateResponse jw r (baselineOf cfg bout) cfg.targetStatusCode
          cfg.checkAlive cfg.useBaseline cfg.baselineThreshold = true →
        fetchURL jw cfg url bout probe = (some url, ["http"]))
    ∧ ((∀ p r, probe p = .success r →
          evaluateResponse jw r (baselineOf cfg bout) cfg.targetStatusCode
            cfg.checkAlive cfg.useBaseline cfg.baselineThreshold = false) →
        (fetchURL jw cfg url bout probe).1 = none) := by
  refine ⟨?_, ?_, ?_, ?_⟩
  · rw [fetchURL]
    by_cases hb : cfg.useBaseline ∧ baselineOf cfg bout = ""
    · rw [if_pos hb]
      exact List.nil_prefix
    · rw [if_neg hb]
      exact fetchAttempts_order jw cfg (baselineOf cfg bout) probe _
  · intro p rest r hp hdrop hev
    exact fetchAttempts_head_match jw cfg _ probe p rest r hp hdrop hev
  · intro r hbase hp hdrop hev
    rw [fetchURL, if_neg hbase,
      fetchAttempts_head_match jw cfg _ probe "http" ["https"] r hp hdrop hev]
    rfl
  · intro hno
    rw [fetchURL]
    by_cases hb : cfg.useBaseline ∧ baselineOf cfg bout = ""
    · rw [if_pos hb]
    · rw [if_neg hb, fetchAttempts_no_match jw cfg _ probe hno]
      rfl

/-- Witness for C3 at a concrete matching first-protocol scenario. -/
theorem fetchURL_first_match_short_circuit_witness :
    fetchURL (fun _ _ _ _ => (0 : ℚ)) ⟨200, false, false, 9/10, false⟩
        "example.com" .netError (fun _ => .success ⟨200, some "hello"⟩)
      = (some "example.com", ["http"]) := by
  have h := fetchURL_first_match_short_circuit (fun _ _ _ _ => (0 : ℚ))
    ⟨200, false, false, 9/10, false⟩ "example.com" .netError
    (fun _ => .success ⟨200, some "hello"⟩)
  exact h.2.2.1 ⟨200, some "hello"⟩ (by simp) rfl (by simp) (by rfl)

/-- Claim C4: with drop-redirects enabled, a response whose status code
lies in `[300, 400)` aborts the domain immediately: at whatever point of
the protocol order it arrives, the loop stops there without a match, and
at the `fetchURL` level nothing is emitted and at most the protocol that
produced the redirect was attempted — in particular no further protocol
is tried. -/
theorem fetchURL_redirect_drop_aborts (jw : String → String → ℚ → ℕ → ℚ)
    (cfg : Config) (url : String) (bout : BaselineOutcome)
    (probe : String → Attempt) (hd : cfg.dropRedirects = true) :
    (∀ p rest r, probe p = .success r → 300 ≤ r.statusCode →
        r.statusCode < 400 →
        fetchAttempts jw cfg (baselineOf cfg bout) probe (p :: rest)
          = (false, [p]))
    ∧ (∀ r, probe "http" = .success r → 300 ≤ r.statusCode →
        r.statusCode < 400 →
        (fetchURL jw cfg url bout probe).1 = none
        ∧ (fetchURL jw cfg url bout probe).2 <+: ["http"]) := by
  constructor
  · intro p rest r hp h3 h4
    exact fetchAttempts_head_redirect jw cfg _ probe p rest r hp hd h3 h4
  · intro r hp h3 h4
    rw [fetchURL]
    by_cases hb : cfg.useBaseline ∧ baselineOf cfg bout = ""
    · rw [if_pos hb]
      exact ⟨rfl, List.nil_prefix⟩
    · rw [if_neg hb,
        fetchAttempts_head_redirect jw cfg _ probe "http" ["https"] r hp hd h3 h4]
      exact ⟨rfl, List.prefix_refl _⟩

/-- Witness for C4: a 301 on http with drop-redirects on yields no
emission and no https attempt. -/
theorem fetchURL_redirect_drop_aborts_witness :
    (fetchURL (fun _ _ _ _ => (0 : ℚ)) ⟨200, false, false, 9/10, true⟩
        "example.com" .netError
        (fun _ => .success ⟨301, some "moved"⟩)).1 = none := by
  have h := fetchURL_redirect_drop_aborts (fun _ _ _ _ => (0 : ℚ))
    ⟨200, false, false, 9/10, true⟩ "example.com" .netError
    (fun _ => .success ⟨301, some "moved"⟩) rfl
  exact (h.2 ⟨301, some "moved"⟩ rfl (by decide) (by decide)).1

/-- Claim C5: with baseline mode on, a domain whose baseline request fails
— network error or body-read error — is skipped entirely: `fetchURL`
returns before the protocol loop, attempting no probe and emitting
nothing, whatever the probes would have returned. -/
theorem fetchURL_baseline_failure_skips (jw : String → String → ℚ → ℕ → ℚ)
    (cfg : Config) (url : String) (bout : BaselineOutcome)
    (probe : String → Attempt) (hb : cfg.useBaseline = true)
    (hf : bout = .netError ∨ bout = .readError) :
    fetchURL jw cfg url bout probe = (none, []) := by
  rcases hf with hf | hf <;> subst hf <;>
    simp [fetchURL, baselineOf, getBaseline, hb]

/-- Witness for C5 at a concrete configuration and probe. -/
theorem fetchURL_baseline_failure_skips_witness :
    fetchURL (fun _ _ _ _ => (0 : ℚ)) ⟨200, false, true, 9/10, false⟩
        "example.com" .netError (fun _ => .success ⟨200, some "hello"⟩)
      = (none, []) :=
  fetchURL_baseline_failure_skips (fun _ _ _ _ => (0 : ℚ))
    ⟨200, false, true, 9/10, false⟩ "example.com" .netError
    (fun _ => .success ⟨200, some "hello"⟩) rfl (Or.inl rfl)

/-- Claim C10: with baseline mode on, a baseline request that succeeds
with an empty body is indistinguishable from a failed baseline fetch: the
empty string is the failure sentinel of `getBaseline`, so the domain is
skipped entirely — no probe attempted, nothing emitted — and `fetchURL`
behaves identically to the network-error case. -/
theorem fetchURL_empty_baseline_is_failure_sentinel
    (jw : String → String → ℚ → ℕ → ℚ) (cfg : Config) (url : String)
    (probe : String → Attempt) (hb : cfg.useBaseline = true) :
    getBaseline (.bodyContent "") = getBaseline .netError
    ∧ fetchURL jw cfg url (.bodyContent "") probe = (none, [])
    ∧ fetchURL jw cfg url (.bodyContent "") probe
        = fetchURL jw cfg url .netError probe := by
  refine ⟨rfl, ?_, ?_⟩
  · simp [fetchURL, baselineOf, getBaseline, hb]
  · simp [fetchURL, baselineOf, getBaseline, hb]

/-- Witness for C10 at a concrete configuration and probe. -/
theorem fetchURL_empty_baseline_is_failure_sentinel_witness :
    fetchURL (fun _ _ _ _ => (0 : ℚ)) ⟨200, false, true, 9/10, false⟩
        "example.com" (.bodyContent "")
        (fun _ => .success ⟨200, some "hello"⟩) = (none, []) :=
  (fetchURL_empty_baseline_is_failure_sentinel (fun _ _ _ _ => (0 : ℚ))
    ⟨200, false, true, 9/10, false⟩ "example.com"
    (fun _ => .success ⟨200, some "hello"⟩) rfl).2.1

/-- Counterexample to claim C7 as stated: with `checkAlive` and baseline
mode both on and the baseline fetch failing, a domain whose probe would
deliver a successful 200 response is nevertheless not emitted — the
emission is not independent of the baseline fetch outcome, because the
baseline prefetch in `fetchURL` runs before the probe loop regardless of
`checkAlive`. -/
theorem fetchURL_checkAlive_baseline_cex :
    fetchURL (fun _ _ _ _ => (0 : ℚ)) ⟨200, true, true, 9/10, false⟩
        "example.com" .netError (fun _ => .success ⟨200, some "hello"⟩)
      = (none, []) := by
  simp [fetchURL, baselineOf, getBaseline]

/-- Claim C7 as amended: when `checkAlive` is true the classifier bypasses
baseline comparison entirely — any received response matches, whatever its
status code, body, baseline content or baseline flag; and the prober emits
the domain on its first successful response, at whatever position of the
protocol order it arrives, provided the response is not dropped as a
redirect and, when baseline mode is also enabled, the baseline prefetch
returned a nonempty body (a failed baseline fetch still skips the domain
even in this mode).  The two `fetchURL`-level conjuncts cover both ways a
first success can arrive: on http directly, and on https after http
transport-fails. -/
theorem fetchURL_checkAlive_amended (jw : String → String → ℚ → ℕ → ℚ)
    (cfg : Config) (url : String) (bout : BaselineOutcome)
    (probe : String → Attempt) (hA : cfg.checkAlive = true) :
    (∀ (resp : HttpResponse) (baseline : String),
        evaluateResponse jw resp baseline cfg.targetStatusCode cfg.checkAlive
          cfg.useBaseline cfg.baselineThreshold = true)
    ∧ (∀ p rest r, probe p = .success r →
        ¬(cfg.dropRedirects ∧ 300 ≤ r.statusCode ∧ r.statusCode < 400) →
        fetchAttempts jw cfg (baselineOf cfg bout) probe (p :: rest)
          = (true, [p]))
    ∧ (∀ r, ¬(cfg.useBaseline ∧ baselineOf cfg bout = "") →
        probe "http" = .success r →
        ¬(cfg.dropRedirects ∧ 300 ≤ r.statusCode ∧ r.statusCode < 400) →
        fetchURL jw cfg url bout probe = (some url, ["http"]))
    ∧ (∀ r, ¬(cfg.useBaseline ∧ baselineOf cfg bout = "") →
        probe "http" = .fail →
        probe "https" = .success r →
        ¬(cfg.dropRedirects ∧ 300 ≤ r.statusCode ∧ r.statusCode < 400) →
        fetchURL jw cfg url bout probe = (some url, ["http", "https"])) := by
  refine ⟨?_, ?_, ?_, ?_⟩
  · intro resp baseline
    simp [evaluateResponse, hA]
  · intro p rest r hp hdrop
    exact fetchAttempts_head_match jw cfg _ probe p rest r hp hdrop
      (by simp [evaluateResponse, hA])
  · intro r hbase hp hdrop
    rw [fetchURL, if_neg hbase,
      fetchAttempts_head_match jw cfg _ probe "http" ["https"] r hp hdrop
        (by simp [evaluateResponse, hA])]
    rfl
  · intro r hbase hfail hps hdrop
    have h2 : fetchAttempts jw cfg (baselineOf cfg bout) probe ["https"]
        = (true, ["https"]) :=
      fetchAttempts_head_match jw cfg _ probe "https" [] r hps hdrop
        (by simp [evaluateResponse, hA])
    rw [fetchURL, if_neg hbase, fetchAttempts, hfail]
    dsimp only
    rw [h2]
    rfl

/-- Witness for the amended C7: checkAlive with baseline off, http
transport-failing and https delivering a 503, emits the domain on the
https attempt — the first successful response. -/
theorem fetchURL_checkAlive_amended_witness :
    fetchURL (fun _ _ _ _ => (0 : ℚ)) ⟨200, true, false, 9/10, false⟩
        "example.com" .netError
        (fun p => if p = "http" then .fail else .success ⟨503, some "oops"⟩)
      = (some "example.com", ["http", "https"]) := by
  have h := fetchURL_checkAlive_amended (fun _ _ _ _ => (0 : ℚ))
    ⟨200, true, false, 9/10, false⟩ "example.com" .netError
    (fun p => if p = "http" then .fail else .success ⟨503, some "oops"⟩) rfl
  exact h.2.2.2 ⟨503, some "oops"⟩ (by simp) (by decide) (by decide) (by simp)

/-- Every limiter step preserves the limiter invariant. -/
lemma limiterInv_step {N : ℕ} {s sNext : LimiterState}
    (hs : LimiterInv N s) (hstep : LimiterStep N s sNext) :
    LimiterInv N sNext := by
  obtain ⟨h1, h2⟩ := hs
  cases hstep with
  | acquire h => exact ⟨by dsimp only; omega, by dsimp only; omega⟩
  | start h => exact ⟨by dsimp only; omega, by dsimp only; omega⟩
  | finish e h => exact ⟨by dsimp only; omega, by dsimp only; omega⟩

/-- The limiter invariant holds in every reachable state. -/
lemma limiterInv_reachable {N : ℕ} {s : LimiterState}
    (h : LimiterReachable N s) : LimiterInv N s := by
  induction h with
  | refl => exact ⟨Nat.le_refl 0, Nat.zero_le N⟩
  | tail hab hbc ih => exact limiterInv_step ih hbc

/-- Claim C2: in every state the batched orchestration can reach, at most
`N` `fetchURL` invocations execute concurrently — each one holds a
semaphore slot acquired before it started, and slots never exceed the
capacity `N`; moreover from any state with a running invocation, every one
of the four exit paths takes the same release step, freeing the slot
unconditionally. -/
theorem limiter_admission_bound (N : ℕ) (s : LimiterState)
    (h : LimiterReachable N s) :
    s.running ≤ N
    ∧ ∀ e : ExitPath, 0 < s.running →
        LimiterStep N s ⟨s.slots - 1, s.pending, s.running - 1⟩ := by
  have hinv := limiterInv_reachable h
  constructor
  · obtain ⟨h1, h2⟩ := hinv
    omega
  · intro ePath hrun
    exact LimiterStep.finish s ePath hrun

/-- Witness for C2: the state after one acquire and one start under
capacity 2 is reachable and respects the bound. -/
theorem limiter_admission_bound_witness :
    (⟨1, 0, 1⟩ : LimiterState).running ≤ 2 := by
  have hr : LimiterReachable 2 ⟨1, 0, 1⟩ := by
    have h1 : LimiterStep 2 ⟨0, 0, 0⟩ ⟨1, 1, 0⟩ :=
      LimiterStep.acquire ⟨0, 0, 0⟩ (by decide)
    have h2 : LimiterStep 2 ⟨1, 1, 0⟩ ⟨1, 0, 1⟩ :=
      LimiterStep.start ⟨1, 1, 0⟩ (by decide)
    exact Relation.ReflTransGen.tail (Relation.ReflTransGen.tail
      Relation.ReflTransGen.refl h1) h2
  exact (limiter_admission_bound 2 ⟨1, 0, 1⟩ hr).1

/-- Flattening the batches reproduces the accumulator followed by the
remaining input: the batching loop neither drops, duplicates nor reorders
domains. -/
lemma mainBatches_flatten (batchSize : ℕ) :
    ∀ (l acc : List String), (mainBatches batchSize acc l).flatten = acc ++ l := by
  intro l
  induction l with
  | nil =>
    intro acc
    rw [mainBatches]
    by_cases h : acc = []
    · rw [if_pos h, h]
      rfl
    · rw [if_neg h]
      simp
  | cons d ds ih =>
    intro acc
    rw [mainBatches]
    by_cases h : batchSize ≤ (acc ++ [d]).length
    · rw [if_pos h, List.flatten_cons, ih]
      simp
    · rw [if_neg h, ih]
      simp

/-- Filtering distributes over flattening batch results. -/
lemma flatten_map_filter (p : String → Bool) (L : List (List String)) :
    (L.map (List.filter p)).flatten = L.flatten.filter p := by
  induction L with
  | nil => rfl
  | cons l ls ih =>
    rw [List.map_cons, List.flatten_cons, List.flatten_cons,
      List.filter_append, ih]

/-- Claim C9: feeding the domain sequence to the pool in fixed-size
batches of 1000 — full chunks flushed as they fill, a final partial chunk
after input end — does not change scan semantics: for every input sequence
and every configuration and network environment, the batched orchestration
emits exactly the matches of feeding each domain individually. -/
theorem batchedScanResults_eq_unbatched (jw : String → String → ℚ → ℕ → ℚ)
    (cfg : Config) (env : String → DomainEnv) (domains : List String) :
    batchedScanResults jw cfg env domains
      = unbatchedScanResults jw cfg env domains := by
  unfold batchedScanResults unbatchedScanResults processBatchResults
  rw [flatten_map_filter, mainBatches_flatten]
  rfl

/-- After `n` rotator calls starting from a legal cursor, the pool and
credentials are unchanged and the cursor sits at `(start + n) mod k`. -/
lemma rotateState_spec (ps : List String) (i : ℕ) (u pw : String)
    (hne : ps ≠ []) (hi : i < ps.length) :
    ∀ n : ℕ, rotateState ⟨ps, i, u, pw⟩ n = ⟨ps, (i + n) % ps.length, u, pw⟩ := by
  intro n
  induction n with
  | zero =>
    rw [rotateState, Nat.add_zero, Nat.mod_eq_of_lt hi]
  | succ n ih =>
    rw [rotateState, ih, getNextProxyURL]
    rw [if_neg (by simpa using hne)]
    have : (i + n) % ps.length + 1 = ((i + n) % ps.length + 1) := rfl
    simp only []
    rw [ProxyState.mk.injEq]
    refine ⟨rfl, ?_, rfl, rfl⟩
    rw [Nat.mod_add_mod, Nat.add_assoc]

/-- The endpoint the `(n+1)`-st rotator call returns is the pool entry at
index `(start + n) mod k`, trimmed and carrying the credentials. -/
lemma rotateOut_spec (ps : List String) (i : ℕ) (u pw : String)
    (hne : ps ≠ []) (hi : i < ps.length) (n : ℕ) :
    rotateOut ⟨ps, i, u, pw⟩ n
      = some (mkProxyURL ⟨ps, i, u, pw⟩ (ps.getD ((i + n) % ps.length) "")) := by
  rw [rotateOut, rotateState_spec ps i u pw hne hi n, getNextProxyURL]
  rw [if_neg (by simpa using hne)]
  rfl

/-- Among `m` consecutive naturals offset by `i`, at least `⌊m/k⌋` land on
any given residue `j` modulo `k`. -/
lemma residue_count (k i j m : ℕ) (hk : 0 < k) (hj : j < k) :
    m / k ≤ ((Finset.range m).filter (fun n => (i + n) % k = j)).card := by
  classical
  have h2 : i % k < k := Nat.mod_lt _ hk
  have hrk : (k + j - i % k) % k < k := Nat.mod_lt _ hk
  have hres : ∀ t, (i + ((k + j - i % k) % k + t * k)) % k = j := by
    intro t
    calc (i + ((k + j - i % k) % k + t * k)) % k
        = (i + (k + j - i % k) % k) % k := by
          rw [← Nat.add_assoc, Nat.add_mul_mod_self_right]
      _ = (i % k + (k + j - i % k) % k % k) % k := by rw [Nat.add_mod]
      _ = (i % k + (k + j - i % k) % k) % k := by
          rw [Nat.mod_mod_of_dvd _ (dvd_refl k)]
      _ = (i % k + (k + j - i % k)) % k := by rw [Nat.add_mod_mod]
      _ = (k + j) % k := by
          have h3 : i % k + (k + j - i % k) = k + j := by omega
          rw [h3]
      _ = j := by rw [Nat.add_mod_left, Nat.mod_eq_of_lt hj]
  have hmap : ∀ t ∈ Finset.range (m / k),
      (k + j - i % k) % k + t * k
        ∈ (Finset.range m).filter (fun n => (i + n) % k = j) := by
    intro t ht
    rw [Finset.mem_range] at ht
    have htk : (t + 1) * k ≤ (m / k) * k := Nat.mul_le_mul_right k ht
    have hdm : (m / k) * k ≤ m := Nat.div_mul_le_self m k
    refine Finset.mem_filter.mpr ⟨Finset.mem_range.mpr ?_, hres t⟩
    have hexp : (t + 1) * k = t * k + k := by ring
    omega
  have hinj : Set.InjOn (fun t => (k + j - i % k) % k + t * k)
      (Finset.range (m / k)) := by
    intro a _ b _ hab
    simp only [] at hab
    have hmul : a * k = b * k := by omega
    exact Nat.eq_of_mul_eq_mul_right hk hmul
  calc m / k = (Finset.range (m / k)).card := (Finset.card_range _).symm
    _ ≤ _ := Finset.card_le_card_of_injOn _ hmap hinj

/-- Claim C6: the rotator is round-robin.  With a legal cursor over a
nonempty pool of `k` endpoints: one call returns the endpoint at the
cursor — trimmed address, scheme `http`, credentials injected when a
username and password are stored — and advances the cursor by exactly one
modulo `k`; the sequence of returned endpoints is periodic with period
`k`; over any `m ≥ k` sequential calls the endpoint at each pool index is
returned at least `⌊m/k⌋` times; and an empty pool yields no proxy
(direct connection) with the state unchanged. -/
theorem getNextProxyURL_round_robin (ps : List String) (i : ℕ)
    (u pw : String) (m j : ℕ) (hne : ps ≠ []) (hi : i < ps.length)
    (hj : j < ps.length) (hm : ps.length ≤ m) :
    (getNextProxyURL ⟨ps, i, u, pw⟩).1
        = some (mkProxyURL ⟨ps, i, u, pw⟩ (ps.getD i ""))
    ∧ (getNextProxyURL ⟨ps, i, u, pw⟩).2
        = ⟨ps, (i + 1) % ps.length, u, pw⟩
    ∧ (∀ n, rotateOut ⟨ps, i, u, pw⟩ (n + ps.length)
        = rotateOut ⟨ps, i, u, pw⟩ n)
    ∧ m / ps.length ≤
        ((Finset.range m).filter (fun n => rotateOut ⟨ps, i, u, pw⟩ n
          = some (mkProxyURL ⟨ps, i, u, pw⟩ (ps.getD j "")))).card
    ∧ (∀ st : ProxyState, st.proxies = [] → getNextProxyURL st = (none, st))
    ∧ (u ≠ "" → pw ≠ "" →
        (mkProxyURL ⟨ps, i, u, pw⟩ (ps.getD i "")).user = some (u, pw)) := by
  classical
  have hk : 0 < ps.length := List.length_pos.mpr hne
  refine ⟨?_, ?_, ?_, ?_, ?_, ?_⟩
  · rw [getNextProxyURL, if_neg (by simpa using hne)]
  · rw [getNextProxyURL, if_neg (by simpa using hne)]
  · intro n
    rw [rotateOut_spec ps i u pw hne hi, rotateOut_spec ps i u pw hne hi,
      ← Nat.add_assoc, Nat.add_mod_right]
  · have hsub : (Finset.range m).filter (fun n => (i + n) % ps.length = j)
        ⊆ (Finset.range m).filter (fun n => rotateOut ⟨ps, i, u, pw⟩ n
          = some (mkProxyURL ⟨ps, i, u, pw⟩ (ps.getD j ""))) := by
      intro n hn
      rw [Finset.mem_filter] at hn ⊢
      refine ⟨hn.1, ?_⟩
      rw [rotateOut_spec ps i u pw hne hi, hn.2]
    exact le_trans (residue_count ps.length i j m hk hj)
      (Finset.card_le_card hsub)
  · intro st hst
    rw [getNextProxyURL, if_pos hst]
  · intro hu hpw
    rw [mkProxyURL, if_pos ⟨hu, hpw⟩]

/-- Witness for C6 on a two-endpoint pool. -/
theorem getNextProxyURL_round_robin_witness :
    (getNextProxyURL ⟨["p1", "p2"], 0, "", ""⟩).1
      = some (mkProxyURL ⟨["p1", "p2"], 0, "", ""⟩ (["p1", "p2"].getD 0 "")) := by
  have h := getNextProxyURL_round_robin ["p1", "p2"] 0 "" "" 2 0
    (by decide) (by decide) (by decide) (by decide)
  exact h.1

/-- A generated random string has exactly the requested length. -/
lemma randomString_length (rng : ℕ → ℕ) (n : ℕ) :
    (randomString rng n).length = n := by
  rw [randomString, String.length_mk, List.length_map, List.length_range]

/-- Every character of a generated random string comes from the
alphanumeric charset. -/
lemma randomString_mem_charset (rng : ℕ → ℕ) (n : ℕ) :
    ∀ c ∈ (randomString rng n).toList, c ∈ charset.toList := by
  intro c hc
  have hc2 : c ∈ (List.range n).map
      (fun i => charset.toList.getD (rng i % 62) 'a') := hc
  rw [List.mem_map] at hc2
  obtain ⟨i, _, rfl⟩ := hc2
  have hlen : charset.toList.length = 62 := rfl
  have hlt : rng i % 62 < charset.toList.length := by
    rw [hlen]
    exact Nat.mod_lt _ (by norm_num)
  rw [List.getD_eq_getElem charset.toList 'a' hlt]
  exact List.getElem_mem hlt

/-- Counterexample to claim C8 as stated: the URL `getBaseline` requests
contains no path segment at all — `fmt.Sprintf("http://%s?%s=%s", ...)`
puts both random strings into the query.  At draw stream constantly `0`
and domain `"x"` the produced URL is 28 characters long, while any URL of
the claimed shape `http://x/<path>?<key>=<value>` with a path of at least
12 and a key of at least 6 characters has at least 29. -/
theorem getBaselineFullURL_no_path_cex :
    ¬ ∃ p q v : String,
      getBaselineFullURL (fun _ => 0) (fun _ => 0) "x"
        = "http://x/" ++ p ++ "?" ++ q ++ "=" ++ v
      ∧ 12 ≤ p.length ∧ 6 ≤ q.length := by
  rintro ⟨p, q, v, heq, hp12, hq6⟩
  have hlen : (getBaselineFullURL (fun _ => 0) (fun _ => 0) "x").length = 28 := rfl
  rw [heq, String.length_append, String.length_append, String.length_append,
    String.length_append, String.length_append] at hlen
  have h1 : ("http://x/").length = 9 := rfl
  have h2 : ("?").length = 1 := rfl
  have h3 : ("=").length = 1 := rfl
  rw [h1, h2, h3] at hlen
  omega

/-- Claim C8 as amended: for every domain, the baseline generator issues
exactly one GET to `http://<domain>` whose URL carries no path segment and
a single random query pair whose key is 6 and whose value is 12
alphanumeric characters, both generated afresh per call from that call's
own draw streams. -/
theorem getBaselineFullURL_query_structure (rngPath rngParam : ℕ → ℕ)
    (url : String) :
    getBaselineFullURL rngPath rngParam url
      = "http://" ++ url ++ "?" ++ randomString rngParam 6 ++ "="
          ++ randomString rngPath 12
    ∧ (randomString rngParam 6).length = 6
    ∧ (randomString rngPath 12).length = 12
    ∧ (∀ c ∈ (randomString rngParam 6).toList, c ∈ charset.toList)
    ∧ (∀ c ∈ (randomString rngPath 12).toList, c ∈ charset.toList) :=
  ⟨rfl, randomString_length rngParam 6, randomString_length rngPath 12,
    randomString_mem_charset rngParam 6, randomString_mem_charset rngPath 12⟩

/-- Witness for the amended C8 at concrete draw streams and domain. -/
theorem getBaselineFullURL_query_structure_witness :
    (randomString (fun _ => 0) 6).length = 6 :=
  (getBaselineFullURL_query_structure (fun _ => 0) (fun _ => 0) "x").2.1

end DomainSurvivor
